import Mathlib


set_option maxRecDepth 100000



/-!

Verification of the instance-lifecycle orchestrator of the ceph-asterisk
repository, shallowly embedded from the Python source.

Main sources embedded here:
- src/routes/instances/instancesCRUD.py : create_instance, delete_instance,
  start_asterisk_container
- src/routes/users.py : update_sip_user, update_sip_config
- src/models/asterisk_instance.py, src/models/sip_user.py : the data model

Modelling conventions: the relational store is a list of records, the local
filesystem is the list of paths (directories / files) that exist, machine
integers are Nat, and every externally failing step (artifact write, record
commit, container stop, tree removal) is driven by an explicit outcome
parameter so that each failure point of the source can be exercised.
Diagnostic prints of the source are omitted: they do not change state.
-/

namespace CephAsterisk



/-- Database row of src/models/asterisk_instance.py (AsteriskInstance). -/
structure AsteriskInstance where
  id : Nat
  name : String
  sip_port : Nat
  http_port : Nat
  rtp_port_start : Nat
  rtp_port_end : Nat
  config_path : String
  status : String
deriving DecidableEq, Repr

/-- Database row of src/models/sip_user.py (SIPUser).  Timestamps are
modelled as abstract Nat instants. -/
structure SIPUser where
  id : Nat
  username : String
  password : String
  caller_id : String
  account_code : String
  context : String
  instance_name : String
  is_active : Bool
  created_at : Nat
  updated_at : Nat
deriving DecidableEq, Repr

/-- Create-request payload read by create_instance in
src/routes/instances/instancesCRUD.py.  The Pydantic schema
(schemas/asterisk.py, AsteriskInstanceCreate) declares name, sip_port and
http_port; create_instance additionally reads rtp_port_start and
rtp_port_end off the request object (lines 60-61 and 82-83), so the
embedded request record carries all five fields the endpoint consumes. -/
structure AsteriskInstanceCreate where
  name : String
  sip_port : Nat
  http_port : Nat
  rtp_port_start : Nat
  rtp_port_end : Nat
deriving DecidableEq, Repr

/-- System state visible to the orchestrator: the instance table, the
sip_users table, the set of existing filesystem paths, and the id counters
the store uses for new rows. -/
structure World where
  instances : List AsteriskInstance
  users : List SIPUser
  fs : List String
  nextId : Nat
  nextUserId : Nat
deriving DecidableEq, Repr

/-- Name-uniqueness check of create_instance (instancesCRUD.py lines 47-52):
some existing row has the requested name. -/
def nameConflict (db : List AsteriskInstance) (req : AsteriskInstanceCreate) : Bool :=
  db.any (fun e => e.name == req.name)

/-- Port-conflict check of create_instance (instancesCRUD.py lines 55-65):
some existing row matches the request on sip_port, http_port,
rtp_port_start or rtp_port_end (plain equality of each field). -/
def portConflict (db : List AsteriskInstance) (req : AsteriskInstanceCreate) : Bool :=
  db.any (fun e =>
    e.sip_port == req.sip_port || e.http_port == req.http_port ||
    e.rtp_port_start == req.rtp_port_start || e.rtp_port_end == req.rtp_port_end)

/-- Modelled from the spec (section 4.1): two media port ranges overlap when
they are not fully disjoint, start_a <= end_b AND start_b <= end_a. -/
def rangesOverlap (aStart aEnd bStart bEnd : Nat) : Bool :=
  decide (aStart ≤ bEnd) && decide (bStart ≤ aEnd)

/-- Modelled from the spec (section 4.1): the proposed instance conflicts
with an existing one when they share the name, the signaling port, the
management port, or their media port ranges overlap.  This definition
follows the words of the spec and is compared against the checks the code
performs (nameConflict, portConflict). -/
def specConflict (db : List AsteriskInstance) (req : AsteriskInstanceCreate) : Bool :=
  db.any (fun e =>
    e.name == req.name || e.sip_port == req.sip_port || e.http_port == req.http_port ||
    rangesOverlap e.rtp_port_start e.rtp_port_end req.rtp_port_start req.rtp_port_end)

/-- Configuration namespace allocated for a new instance
(instancesCRUD.py line 68). -/
def cfgDir (name : String) : String := "./asterisk_configs/" ++ name

/-- Filesystem effect of os.makedirs(path, exist_ok=True). -/
def addPath (p : String) (fs : List String) : List String :=
  if p ∈ fs then fs else fs ++ [p]

/-- Filesystem effect of shutil.rmtree(path). -/
def removePath (p : String) (fs : List String) : List String :=
  fs.filter (fun q => q ≠ p)

/-- Failure injection for the three fallible steps inside the try block of
create_instance: artifact write (create_default_configs), commit of the
instance row, and commit of the seeded test users. -/
structure FailurePlan where
  writeFails : Bool
  commitFails : Bool
  seedFails : Bool
deriving DecidableEq, Repr

/-- Outcome of create_instance: the created row, an HTTP 400 conflict with
its detail string, or the HTTP 500 cleanup path of the except block. -/
inductive CreateResult where
  | created (inst : AsteriskInstance)
  | conflict (detail : String)
  | failed
deriving DecidableEq, Repr

/-- The two fixed test users seeded by create_instance
(instancesCRUD.py lines 93-115); ids and timestamps are assigned by the
store at insertion. -/
def testUsers (instName : String) (firstId : Nat) (now : Nat) : List SIPUser :=
  [ { id := firstId, username := "1001", password := "test1001",
      caller_id := "Test User 1", account_code := "test", context := "internal",
      instance_name := instName, is_active := true,
      created_at := now, updated_at := now },
    { id := firstId + 1, username := "1002", password := "test1002",
      caller_id := "Test User 2", account_code := "test", context := "internal",
      instance_name := instName, is_active := true,
      created_at := now, updated_at := now } ]

/-- Embedding of create_instance (instancesCRUD.py lines 38-125).
Checks name uniqueness, then port conflicts, creates the configuration
namespace, and inside the try block writes the artifacts, commits the row
with status creating, and optionally seeds the two test users; any failure
inside the try block removes the configuration namespace and returns the
500 error, without undoing a commit that already happened. -/
def create_instance (w : World) (req : AsteriskInstanceCreate)
    (create_test_users : Bool) (fp : FailurePlan) (now : Nat) :
    CreateResult × World :=
  if nameConflict w.instances req then
    (CreateResult.conflict "Instance name already exists", w)
  else if portConflict w.instances req then
    (CreateResult.conflict "Ports already in use", w)
  else
    let dir := cfgDir req.name
    let fs1 := addPath dir w.fs
    if fp.writeFails then
      (CreateResult.failed, { w with fs := removePath dir fs1 })
    else if fp.commitFails then
      (CreateResult.failed, { w with fs := removePath dir fs1 })
    else
      let inst : AsteriskInstance :=
        { id := w.nextId, name := req.name, sip_port := req.sip_port,
          http_port := req.http_port, rtp_port_start := req.rtp_port_start,
          rtp_port_end := req.rtp_port_end, config_path := dir,
          status := "creating" }
      let w1 : World :=
        { w with instances := w.instances ++ [inst], fs := fs1,
                 nextId := w.nextId + 1 }
      if create_test_users then
        if fp.seedFails then
          (CreateResult.failed, { w1 with fs := removePath dir w1.fs })
        else
          (CreateResult.created inst,
            { w1 with users := w1.users ++ testUsers req.name w1.nextUserId now,
                      nextUserId := w1.nextUserId + 2 })
      else
        (CreateResult.created inst, w1)

/-- Detail string of a 400 conflict result, none otherwise. -/
def conflictDetail : CreateResult → Option String
  | CreateResult.conflict d => some d
  | _ => none

/-- Whether a create outcome is a 400 conflict rejection. -/
def isConflict : CreateResult → Bool
  | CreateResult.conflict _ => true
  | _ => false

/-- A failure plan in which every injected step succeeds. -/
def noFail : FailurePlan :=
  { writeFails := false, commitFails := false, seedFails := false }

/-- Sample existing instance used by concrete counterexamples and
witnesses. -/
def instA : AsteriskInstance :=
  { id := 1, name := "pbx1", sip_port := 5060, http_port := 8088,
    rtp_port_start := 10000, rtp_port_end := 10010,
    config_path := "./asterisk_configs/pbx1", status := "running" }

/-- Sample world holding only instA. -/
def worldA : World :=
  { instances := [instA], users := [], fs := ["./asterisk_configs/pbx1"],
    nextId := 2, nextUserId := 1 }

/-- Whether a create outcome is an error (400 conflict or the 500 path). -/
def isCreateError : CreateResult → Bool
  | CreateResult.created _ => false
  | _ => true

/-- Empty world used by concrete witnesses. -/
def wEmpty : World :=
  { instances := [], users := [], fs := [], nextId := 1, nextUserId := 1 }

/-- Outcome of the docker-compose down invocation inside delete_instance:
clean exit, non-zero exit (warning only), or exceeding the 30 second
timeout (raises subprocess.TimeoutExpired). -/
inductive StopOutcome where
  | ok
  | failedExit
  | timedOut
deriving DecidableEq, Repr

/-- Failure injection for the fallible steps of delete_instance: the
container stop, the two tree removals, and the removal of the durable
record. -/
structure DeleteEnv where
  stop : StopOutcome
  rmConfigFails : Bool
  rmComposeFails : Bool
  recordRemoveFails : Bool
deriving DecidableEq, Repr

/-- Outcome of delete_instance: 404, the success message, the 500 raised on
a stop timeout, or the 500 raised when the record removal fails. -/
inductive DeleteResult where
  | notFound
  | ok
  | timeoutErr
  | deletionErr
deriving DecidableEq, Repr

/-- Character-list version of the Python str.startswith test. -/
def charsLead : List Char → List Char → Bool
  | [], _ => true
  | _ :: _, [] => false
  | a :: as, b :: bs => a == b && charsLead as bs

/-- Python str.startswith(pre), embedded over the character lists of the
two strings. -/
def strStartsWith (s pre : String) : Bool := charsLead pre.toList s.toList

/-- Compose directory probed by delete_instance (instancesCRUD.py
line 191). -/
def composePath (name : String) : String := "./docker-compose/asterisk-" ++ name

/-- Embedding of delete_instance (instancesCRUD.py lines 181-252).  When
the compose directory exists the stop command runs; a timeout there raises
out of the try block before any cleanup, yielding the 500 timeout error.
Config-tree removal is skipped for an empty config_path and for paths
beginning with ceph://; removal failures of either tree are caught by
inner handlers and only warn.  Finally the record is deleted; if that
commit fails the generic handler yields the 500 deletion error (the
filesystem removals already performed are not undone). -/
def delete_instance (w : World) (instance_id : Nat) (env : DeleteEnv) :
    DeleteResult × World :=
  match w.instances.find? (fun i => i.id == instance_id) with
  | none => (DeleteResult.notFound, w)
  | some inst =>
    let cp := composePath inst.name
    if cp ∈ w.fs ∧ env.stop = StopOutcome.timedOut then
      (DeleteResult.timeoutErr, w)
    else
      let fs1 :=
        if inst.config_path = "" then w.fs
        else if strStartsWith inst.config_path "ceph://" then w.fs
        else if inst.config_path ∈ w.fs then
          (if env.rmConfigFails then w.fs else removePath inst.config_path w.fs)
        else w.fs
      let fs2 :=
        if cp ∈ fs1 then
          (if env.rmComposeFails then fs1 else removePath cp fs1)
        else fs1
      if env.recordRemoveFails then
        (DeleteResult.deletionErr, { w with fs := fs2 })
      else
        (DeleteResult.ok,
          { w with fs := fs2,
                   instances := w.instances.filter (fun i => i.id ≠ instance_id) })

/-- Sample instance used by the delete counterexample and witnesses. -/
def instD : AsteriskInstance :=
  { id := 3, name := "pbx3", sip_port := 5061, http_port := 8089,
    rtp_port_start := 11000, rtp_port_end := 11010,
    config_path := "./asterisk_configs/pbx3", status := "running" }

/-- Sample world for delete: instD exists together with its compose
directory and configuration tree. -/
def wDel : World :=
  { instances := [instD], users := [],
    fs := [composePath "pbx3", "./asterisk_configs/pbx3"],
    nextId := 4, nextUserId := 1 }

/-- Sample ceph-backed instance and world for the C10 witness. -/
def instC : AsteriskInstance :=
  { id := 5, name := "pbx4", sip_port := 5062, http_port := 8090,
    rtp_port_start := 12000, rtp_port_end := 12010,
    config_path := "ceph://pool/pbx4", status := "running" }

/-- Sample world holding instC and two filesystem paths. -/
def wCeph : World :=
  { instances := [instC], users := [],
    fs := [composePath "pbx4", "ceph://pool/pbx4"],
    nextId := 6, nextUserId := 1 }

/-- Outcome of the docker compose up invocation inside
start_asterisk_container: completion with an exit code, or exceeding the
30 second timeout (raises subprocess.TimeoutExpired, which the function
does not catch). -/
inductive RunResult where
  | completed (exitCode : Nat)
  | timedOut
deriving DecidableEq, Repr

/-- Compose file written by start_asterisk_container (instancesCRUD.py
lines 565-570); the source joins "./docker-compose/" and the filename with
an extra slash. -/
def composeFilePath (name : String) : String :=
  "./docker-compose//docker-compose-" ++ name ++ ".yml"

/-- Store update performed when the background start commits a status. -/
def setStatus (db : List AsteriskInstance) (instId : Nat) (s : String) :
    List AsteriskInstance :=
  db.map (fun i => if i.id == instId then { i with status := s } else i)

/-- Embedding of start_asterisk_container (instancesCRUD.py lines 534-595).
The function writes the compose file, runs docker compose up, and commits
status running on exit code 0 and status error on a non-zero exit code; a
timeout raises out of the function before any status commit.  No branch
removes the instance record or any existing filesystem path.  The
diagnostic listing of the configuration directory is a read and is
omitted. -/
def start_asterisk_container (w : World) (inst : AsteriskInstance)
    (r : RunResult) : World :=
  let fs1 := addPath (composeFilePath inst.name) (addPath "./docker-compose/" w.fs)
  match r with
  | RunResult.completed 0 =>
      { w with fs := fs1, instances := setStatus w.instances inst.id "running" }
  | RunResult.completed _ =>
      { w with fs := fs1, instances := setStatus w.instances inst.id "error" }
  | RunResult.timedOut => { w with fs := fs1 }

/-- Status of the record with the given id, if present. -/
def statusOf (w : World) (instId : Nat) : Option String :=
  (w.instances.find? (fun i => i.id == instId)).map (fun i => i.status)

/-- Sample provisioning instance and world for the C8 counterexample and
witness. -/
def instP : AsteriskInstance :=
  { id := 7, name := "pbx7", sip_port := 5063, http_port := 8091,
    rtp_port_start := 13000, rtp_port_end := 13010,
    config_path := "./asterisk_configs/pbx7", status := "creating" }

/-- Sample world holding instP in status creating. -/
def wProv : World :=
  { instances := [instP], users := [],
    fs := ["./asterisk_configs/pbx7"], nextId := 8, nextUserId := 1 }

/-- Literal preamble text of sip.conf before the first port interpolation
(src/routes/users.py lines 124-127). -/
def preA : String :=
  "[general]\n        context=default\n        bindaddr=0.0.0.0\n        bindport="

/-- Literal preamble text between the two port interpolations
(src/routes/users.py lines 128-129). -/
def preB : String :=
  "\n        srvlookup=yes\n        udpbindaddr=0.0.0.0:"

/-- Literal preamble text after the second port interpolation
(src/routes/users.py lines 130-135). -/
def preC : String :=
  "\n        transport=udp\n        disallow=all\n        allow=ulaw\n        allow=alaw\n\n        "

/-- Shared preamble of the generated sip.conf, a function of the instance
signaling port (src/routes/users.py lines 124-135). -/
def sipPreamble (inst : AsteriskInstance) : String :=
  preA ++ Nat.repr inst.sip_port ++ preB ++ Nat.repr inst.sip_port ++ preC

/-- Literal section text pieces of one user section
(src/routes/users.py lines 139-153), split at the interpolated fields. -/
def secA : String := "; Пользователь: "

/-- Section piece between caller_id and username. -/
def secB : String := "\n            ["

/-- Section piece between username and password. -/
def secC : String :=
  "]\n            type=friend\n            host=dynamic\n            secret="

/-- Section piece between password and context. -/
def secD : String := "\n            context="

/-- Section piece between context and the quoted caller_id. -/
def secE : String := "\n            callerid=\""

/-- Section piece between the quoted caller_id and the bracketed
username. -/
def secF : String := "\" <"

/-- Section piece between the bracketed username and account_code. -/
def secG : String := ">\n            accountcode="

/-- Trailing literal of one user section. -/
def secH : String :=
  "\n            disallow=all\n            allow=ulaw\n            allow=alaw\n            dtmfmode=rfc2833\n            qualify=yes\n\n            "

/-- One rendered user section of sip.conf; the user-supplied fields are
interpolated verbatim, exactly as the Python f-string does. -/
def userSection (u : SIPUser) : String :=
  secA ++ u.caller_id ++ secB ++ u.username ++ secC ++ u.password ++
    secD ++ u.context ++ secE ++ u.caller_id ++ secF ++ u.username ++
    secG ++ u.account_code ++ secH

/-- Full sip.conf content built by update_sip_config
(src/routes/users.py lines 124-153): the preamble followed by one appended
section per user of the supplied roster (the code passes the already
filtered list of active users of the instance). -/
def sip_conf_content (inst : AsteriskInstance) (users : List SIPUser) : String :=
  users.foldl (fun acc u => acc ++ userSection u) (sipPreamble inst)

/-- The roster query of update_sip_config (src/routes/users.py
lines 107-111): the users of the instance whose is_active flag is set, in
store order. -/
def activeUsersFor (instance_name : String) (users : List SIPUser) : List SIPUser :=
  users.filter (fun u => u.instance_name == instance_name && u.is_active)

/-- Artifact produced by update_sip_config for an instance name on a given
world: none when the instance row is missing (the function returns without
writing), otherwise the rendered sip.conf content. -/
def renderSipConf (instance_name : String) (w : World) : Option String :=
  match w.instances.find? (fun i => i.name == instance_name) with
  | none => none
  | some inst => some (sip_conf_content inst (activeUsersFor instance_name w.users))

/-- Sample instance for the renderer witnesses. -/
def instR : AsteriskInstance :=
  { id := 10, name := "pbxr", sip_port := 5064, http_port := 8092,
    rtp_port_start := 14000, rtp_port_end := 14010,
    config_path := "./asterisk_configs/pbxr", status := "running" }

/-- Sample inactive user of instR. -/
def uInact : SIPUser :=
  { id := 22, username := "2002", password := "pw2002", caller_id := "Bob",
    account_code := "acct", context := "internal", instance_name := "pbxr",
    is_active := false, created_at := 5, updated_at := 5 }

/-- Partial update payload of schemas/asterisk.py (SIPUserUpdate); a none
field was not supplied and is left unchanged (exclude_unset semantics in
src/routes/users.py line 60). -/
structure SIPUserUpdate where
  password : Option String
  caller_id : Option String
  account_code : Option String
  context : Option String
  is_active : Option Bool
deriving DecidableEq, Repr

/-- Field-by-field application of a partial update, followed by the
updated_at refresh of src/routes/users.py line 64. -/
def applyUserUpdate (upd : SIPUserUpdate) (now : Nat) (u : SIPUser) : SIPUser :=
  { u with
    password := upd.password.getD u.password,
    caller_id := upd.caller_id.getD u.caller_id,
    account_code := upd.account_code.getD u.account_code,
    context := upd.context.getD u.context,
    is_active := upd.is_active.getD u.is_active,
    updated_at := now }

/-- The deactivation payload: only is_active is supplied, as false. -/
def deactivateUpdate : SIPUserUpdate :=
  { password := none, caller_id := none, account_code := none,
    context := none, is_active := some false }

/-- Embedding of update_sip_user (src/routes/users.py lines 36-71): 404
when the instance or the user (matched by id within the instance) is
missing; otherwise the supplied fields are applied to the stored user row
and committed — the row is never deleted.  The subsequent
update_sip_config call regenerates the sip.conf artifact, whose content on
the resulting world is renderSipConf. -/
def update_sip_user (w : World) (instance_id user_id : Nat)
    (upd : SIPUserUpdate) (now : Nat) : Option World :=
  match w.instances.find? (fun i => i.id == instance_id) with
  | none => none
  | some inst =>
    match w.users.find?
        (fun x => x.id == user_id && x.instance_name == inst.name) with
    | none => none
    | some _ =>
      some { w with users := w.users.map (fun x =>
          if x.id == user_id && x.instance_name == inst.name then
            applyUserUpdate upd now x
          else x) }

/-- Concatenation of the rendered sections of a user list, in order. -/
def concatSections : List SIPUser → String
  | [] => ""
  | u :: rest => userSection u ++ concatSections rest

/-- Sample active users of instR for the C7 witness. -/
def uAct : SIPUser :=
  { id := 20, username := "2000", password := "pw2000", caller_id := "Alice",
    account_code := "acct", context := "internal", instance_name := "pbxr",
    is_active := true, created_at := 4, updated_at := 4 }

/-- Second sample active user of instR. -/
def uAct2 : SIPUser :=
  { id := 21, username := "2001", password := "pw2001", caller_id := "Carol",
    account_code := "acct", context := "internal", instance_name := "pbxr",
    is_active := true, created_at := 6, updated_at := 6 }

/-- Sample world for the C7 witness: instR with two active users. -/
def wUp : World :=
  { instances := [instR], users := [uAct, uAct2],
    fs := ["./asterisk_configs/pbxr"], nextId := 11, nextUserId := 23 }

/-- Section-header scanner: counts the characters of a text at which a
configuration section starts, i.e. the occurrences of an opening bracket
that is the first non-space character of its line.  The Bool state records
whether only spaces have been seen since the last line start. -/
def lineStartScan : Bool → List Char → Nat
  | _, [] => 0
  | b, c :: cs =>
    if c = '\n' then lineStartScan true cs
    else if c = '[' then (if b then 1 else 0) + lineStartScan false cs
    else if c = ' ' then lineStartScan b cs
    else lineStartScan false cs

/-- State of the section-header scanner after consuming a text. -/
def lineState : Bool → List Char → Bool
  | b, [] => b
  | b, c :: cs =>
    if c = '\n' then lineState true cs
    else if c = ' ' then lineState b cs
    else lineState false cs

/-- Number of section-header lines of a rendered artifact: lines whose
first non-space character is an opening bracket. -/
def sectionLineCount (s : String) : Nat := lineStartScan true s.toList

/-- A string field with no newline character. -/
def noNewline (s : String) : Prop := '\n' ∉ s.toList

/-- A roster entry whose interpolated free-text fields contain no newline
character; only such entries are guaranteed to stay confined to their own
section (a bracket after an injected newline opens a spurious section). -/
def benignFields (u : SIPUser) : Prop :=
  noNewline u.caller_id ∧ noNewline u.username ∧ noNewline u.password ∧
    noNewline u.context ∧ noNewline u.account_code

instance (s : String) : Decidable (noNewline s) := by
  unfold noNewline
  infer_instance

instance (u : SIPUser) : Decidable (benignFields u) := by
  unfold benignFields
  infer_instance

/-- Claim C1, as stated: create rejects with a conflict exactly when the
request conflicts with an existing instance under the spec conflict
definition (which includes media port range overlap).  This is false: a
request whose media range strictly contains the existing range 10000-10010
without sharing either endpoint (9999-10011) overlaps it, yet create
accepts the request, because the code compares rtp_port_start and
rtp_port_end by plain equality. -/
theorem c1_counterexample :
    let req : AsteriskInstanceCreate :=
      { name := "pbx2", sip_port := 5070, http_port := 8098,
        rtp_port_start := 9999, rtp_port_end := 10011 }
    specConflict worldA.instances req = true ∧
    isConflict (create_instance worldA req false noFail 0).1 = false := by
  constructor
  · decide
  · decide

/-- Claim C1, amended: create rejects with a conflict exactly when some
existing instance matches the request on name, or on one of sip_port,
http_port, rtp_port_start, rtp_port_end by plain field equality (endpoint
equality, not range overlap). -/
theorem c1_amended (w : World) (req : AsteriskInstanceCreate)
    (ctu : Bool) (fp : FailurePlan) (now : Nat) :
    isConflict (create_instance w req ctu fp now).1 =
      (nameConflict w.instances req || portConflict w.instances req) := by
  unfold create_instance
  by_cases hn : nameConflict w.instances req
  · simp [hn, isConflict]
  · by_cases hp : portConflict w.instances req
    · simp [hn, hp, isConflict]
    · by_cases hw : fp.writeFails <;> by_cases hc : fp.commitFails <;>
        by_cases hctu : ctu <;> by_cases hs : fp.seedFails <;>
        simp [hn, hp, hw, hc, hctu, hs, isConflict]

/-- Claim C5, as stated: a conflict error identifies the specific colliding
attribute.  This is false for port collisions: a request colliding only on
the signaling port and a request colliding only on the management port
receive byte-identical error details ("Ports already in use"), so the
message cannot identify which port collided. -/
theorem c5_counterexample :
    let reqSip : AsteriskInstanceCreate :=
      { name := "pbx2", sip_port := 5060, http_port := 8098,
        rtp_port_start := 20000, rtp_port_end := 20010 }
    let reqHttp : AsteriskInstanceCreate :=
      { name := "pbx3", sip_port := 5070, http_port := 8088,
        rtp_port_start := 30000, rtp_port_end := 30010 }
    (reqSip.sip_port = instA.sip_port ∧ reqSip.http_port ≠ instA.http_port) ∧
    (reqHttp.sip_port ≠ instA.sip_port ∧ reqHttp.http_port = instA.http_port) ∧
    conflictDetail (create_instance worldA reqSip false noFail 0).1 =
      some "Ports already in use" ∧
    conflictDetail (create_instance worldA reqHttp false noFail 0).1 =
      some "Ports already in use" := by
  decide

/-- Claim C5, amended: a name collision is reported with the specific
detail "Instance name already exists"; every port collision (whichever of
the four port fields matches) is reported with the single undifferentiated
detail "Ports already in use". -/
theorem c5_amended (w : World) (req : AsteriskInstanceCreate)
    (ctu : Bool) (fp : FailurePlan) (now : Nat) :
    conflictDetail (create_instance w req ctu fp now).1 =
      (if nameConflict w.instances req then some "Instance name already exists"
       else if portConflict w.instances req then some "Ports already in use"
       else none) := by
  unfold create_instance
  by_cases hn : nameConflict w.instances req
  · simp [hn, conflictDetail]
  · by_cases hp : portConflict w.instances req
    · simp [hn, hp, conflictDetail]
    · by_cases hw : fp.writeFails <;> by_cases hc : fp.commitFails <;>
        by_cases hctu : ctu <;> by_cases hs : fp.seedFails <;>
        simp [hn, hp, hw, hc, hctu, hs, conflictDetail]

/-- Removing a path removes every copy of it. -/
theorem not_mem_removePath_self (p : String) (fs : List String) :
    p ∉ removePath p fs := by
  simp [removePath, List.mem_filter]

/-- Claim C2, as stated: every erroring create leaves zero residue (the
filesystem namespace is removed and no durable record for the attempted
instance exists), including a failure after the record commit such as
test-user seeding.  This is false: when seeding the test users fails, the
except block removes the configuration namespace but the already committed
instance row is not rolled back, so a durable record for the attempted
instance survives the error. -/
theorem c2_counterexample :
    let req : AsteriskInstanceCreate :=
      { name := "pbx9", sip_port := 5090, http_port := 8090,
        rtp_port_start := 40000, rtp_port_end := 40010 }
    let fp : FailurePlan :=
      { writeFails := false, commitFails := false, seedFails := true }
    let out := create_instance wEmpty req true fp 0
    out.1 = CreateResult.failed ∧
    out.2.instances.any (fun i => i.name == "pbx9") = true ∧
    cfgDir "pbx9" ∉ out.2.fs := by
  decide

/-- Claim C2, amended: an erroring create leaves zero residue (namespace
removed, no durable record for the requested name) for every failure point
up to and including the commit of the instance record; the amendment
excludes the test-user seeding failure, which happens after the commit and
leaves the committed record behind. -/
theorem c2_amended (w : World) (req : AsteriskInstanceCreate) (ctu : Bool)
    (fp : FailurePlan) (now : Nat)
    (hfs : cfgDir req.name ∉ w.fs)
    (hrec : ∀ i ∈ w.instances, i.name ≠ req.name)
    (hseed : fp.seedFails = false)
    (herr : isCreateError (create_instance w req ctu fp now).1 = true) :
    cfgDir req.name ∉ (create_instance w req ctu fp now).2.fs ∧
    ∀ i ∈ (create_instance w req ctu fp now).2.instances, i.name ≠ req.name := by
  unfold create_instance at herr ⊢
  by_cases hn : nameConflict w.instances req
  · simpa [hn] using ⟨hfs, hrec⟩
  · by_cases hp : portConflict w.instances req
    · simpa [hn, hp] using ⟨hfs, hrec⟩
    · by_cases hw : fp.writeFails
      · simpa [hn, hp, hw] using ⟨not_mem_removePath_self _ _, hrec⟩
      · by_cases hc : fp.commitFails
        · simpa [hn, hp, hw, hc] using ⟨not_mem_removePath_self _ _, hrec⟩
        · by_cases hctu : ctu <;>
            simp [hn, hp, hw, hc, hctu, hseed, isCreateError] at herr

/-- Witness for c2_amended at a concrete input: an artifact-write failure
on a fresh world leaves no namespace and no record. -/
theorem c2_amended_witness :
    cfgDir "pbxw" ∉
      (create_instance wEmpty
        { name := "pbxw", sip_port := 5100, http_port := 8100,
          rtp_port_start := 41000, rtp_port_end := 41010 } true
        { writeFails := true, commitFails := false, seedFails := false } 0).2.fs ∧
    ∀ i ∈ (create_instance wEmpty
        { name := "pbxw", sip_port := 5100, http_port := 8100,
          rtp_port_start := 41000, rtp_port_end := 41010 } true
        { writeFails := true, commitFails := false, seedFails := false } 0).2.instances,
      i.name ≠ "pbxw" :=
  c2_amended wEmpty
    { name := "pbxw", sip_port := 5100, http_port := 8100,
      rtp_port_start := 41000, rtp_port_end := 41010 } true
    { writeFails := true, commitFails := false, seedFails := false } 0
    (by decide) (by decide) (by decide) (by decide)

/-- Claim C9: a successful create with create_test_users set commits
exactly the two fixed test users 1001/test1001 and 1002/test1002 (account
code test, context internal) for the new instance, and a create with the
flag unset seeds no users. -/
theorem c9_test_users (w : World) (req : AsteriskInstanceCreate)
    (fp : FailurePlan) (now : Nat)
    (hn : nameConflict w.instances req = false)
    (hp : portConflict w.instances req = false)
    (hw : fp.writeFails = false) (hc : fp.commitFails = false)
    (hs : fp.seedFails = false) :
    (∃ inst, (create_instance w req true fp now).1 = CreateResult.created inst) ∧
    (create_instance w req true fp now).2.users
      = w.users ++ testUsers req.name w.nextUserId now ∧
    (create_instance w req false fp now).2.users = w.users := by
  unfold create_instance
  simp [hn, hp, hw, hc, hs]

/-- Witness for c9_test_users at a concrete input. -/
theorem c9_test_users_witness :
    (∃ inst, (create_instance wEmpty
        { name := "pbxt", sip_port := 5110, http_port := 8110,
          rtp_port_start := 42000, rtp_port_end := 42010 } true noFail 7).1
      = CreateResult.created inst) ∧
    (create_instance wEmpty
        { name := "pbxt", sip_port := 5110, http_port := 8110,
          rtp_port_start := 42000, rtp_port_end := 42010 } true noFail 7).2.users
      = wEmpty.users ++ testUsers "pbxt" wEmpty.nextUserId 7 ∧
    (create_instance wEmpty
        { name := "pbxt", sip_port := 5110, http_port := 8110,
          rtp_port_start := 42000, rtp_port_end := 42010 } false noFail 7).2.users
      = wEmpty.users :=
  c9_test_users wEmpty
    { name := "pbxt", sip_port := 5110, http_port := 8110,
      rtp_port_start := 42000, rtp_port_end := 42010 } noFail 7
    (by decide) (by decide) (by decide) (by decide) (by decide)

/-- Removing a different path keeps a present path. -/
theorem mem_removePath_of_ne {p q : String} (h : p ≠ q) (fs : List String)
    (hp : p ∈ fs) : p ∈ removePath q fs := by
  simp [removePath, List.mem_filter, hp, h]

/-- Claim C3, as stated: only record-removal failure makes delete fail; a
stop that exceeds its timeout never does.  This is false: when the compose
directory exists and the stop times out, delete_instance raises the 500
timeout error, the durable record is retained, and the configuration tree
is not removed. -/
theorem c3_counterexample :
    let env : DeleteEnv :=
      { stop := StopOutcome.timedOut, rmConfigFails := false,
        rmComposeFails := false, recordRemoveFails := false }
    let out := delete_instance wDel 3 env
    out.1 = DeleteResult.timeoutErr ∧
    out.2.instances.any (fun i => i.id == 3) = true ∧
    "./asterisk_configs/pbx3" ∈ out.2.fs := by
  decide

/-- Claim C3, amended: provided the stop step does not exceed its timeout,
delete succeeds exactly when the durable-record removal succeeds — a
non-zero stop exit and failures of either tree removal are warnings only —
and on success the durable record is removed. -/
theorem c3_amended (w : World) (instId : Nat) (env : DeleteEnv)
    (inst : AsteriskInstance)
    (hfind : w.instances.find? (fun i => i.id == instId) = some inst)
    (hnt : ¬(composePath inst.name ∈ w.fs ∧ env.stop = StopOutcome.timedOut)) :
    ((delete_instance w instId env).1 = DeleteResult.ok ↔
      env.recordRemoveFails = false) ∧
    ((delete_instance w instId env).1 = DeleteResult.ok →
      ∀ j ∈ (delete_instance w instId env).2.instances, j.id ≠ instId) := by
  unfold delete_instance
  simp only [hfind]
  by_cases hr : env.recordRemoveFails <;>
    simp [hnt, hr, List.mem_filter]

/-- Witness for c3_amended at a concrete input: with a non-zero stop exit
and both tree removals failing, delete still succeeds and removes the
record. -/
theorem c3_amended_witness :
    ((delete_instance wDel 3
        { stop := StopOutcome.failedExit, rmConfigFails := true,
          rmComposeFails := true, recordRemoveFails := false }).1
      = DeleteResult.ok ↔
      ({ stop := StopOutcome.failedExit, rmConfigFails := true,
         rmComposeFails := true, recordRemoveFails := false }
        : DeleteEnv).recordRemoveFails = false) ∧
    ((delete_instance wDel 3
        { stop := StopOutcome.failedExit, rmConfigFails := true,
          rmComposeFails := true, recordRemoveFails := false }).1
      = DeleteResult.ok →
      ∀ j ∈ (delete_instance wDel 3
        { stop := StopOutcome.failedExit, rmConfigFails := true,
          rmComposeFails := true, recordRemoveFails := false }).2.instances,
        j.id ≠ 3) :=
  c3_amended wDel 3
    { stop := StopOutcome.failedExit, rmConfigFails := true,
      rmComposeFails := true, recordRemoveFails := false }
    instD (by decide) (by decide)

/-- Claim C10: deleting an instance whose config_path begins with ceph://
skips the configuration-tree removal entirely, still removes the durable
record, and reports success; every filesystem path other than the compose
directory of the instance — in particular the whole configuration tree —
is left untouched. -/
theorem c10_ceph_skip (w : World) (instId : Nat) (env : DeleteEnv)
    (inst : AsteriskInstance)
    (hfind : w.instances.find? (fun i => i.id == instId) = some inst)
    (hceph : strStartsWith inst.config_path "ceph://" = true)
    (hnt : ¬(composePath inst.name ∈ w.fs ∧ env.stop = StopOutcome.timedOut))
    (hr : env.recordRemoveFails = false) :
    (delete_instance w instId env).1 = DeleteResult.ok ∧
    (∀ j ∈ (delete_instance w instId env).2.instances, j.id ≠ instId) ∧
    (∀ p ∈ w.fs, p ≠ composePath inst.name →
      p ∈ (delete_instance w instId env).2.fs) := by
  unfold delete_instance
  simp only [hfind]
  have hne : ¬(inst.config_path = "") := by
    intro h
    rw [h] at hceph
    exact absurd hceph (by decide)
  rw [if_neg hnt]
  refine ⟨by simp [hr], by simp [hr, List.mem_filter], ?_⟩
  intro p hp hne2
  by_cases hcp : composePath inst.name ∈ w.fs
  · by_cases hcf : env.rmComposeFails
    · simp [hr, hne, hceph, hcp, hcf, hp]
    · simp [hr, hne, hceph, hcp, hcf]
      exact mem_removePath_of_ne hne2 w.fs hp
  · simp [hr, hne, hceph, hcp, hp]

/-- Witness for c10_ceph_skip at a concrete input. -/
theorem c10_ceph_skip_witness :
    (delete_instance wCeph 5
        { stop := StopOutcome.ok, rmConfigFails := false,
          rmComposeFails := false, recordRemoveFails := false }).1
      = DeleteResult.ok ∧
    (∀ j ∈ (delete_instance wCeph 5
        { stop := StopOutcome.ok, rmConfigFails := false,
          rmComposeFails := false, recordRemoveFails := false }).2.instances,
      j.id ≠ 5) ∧
    (∀ p ∈ wCeph.fs, p ≠ composePath instC.name →
      p ∈ (delete_instance wCeph 5
        { stop := StopOutcome.ok, rmConfigFails := false,
          rmComposeFails := false, recordRemoveFails := false }).2.fs) :=
  c10_ceph_skip wCeph 5
    { stop := StopOutcome.ok, rmConfigFails := false,
      rmComposeFails := false, recordRemoveFails := false }
    instC (by decide) (by decide) (by decide) rfl

/-- Existing paths survive os.makedirs. -/
theorem mem_addPath (p q : String) (fs : List String) (h : p ∈ fs) :
    p ∈ addPath q fs := by
  unfold addPath
  split
  · exact h
  · exact List.mem_append_left _ h

/-- Updating the status of a found record updates exactly its status
field. -/
theorem find?_setStatus (db : List AsteriskInstance) (instId : Nat)
    (s : String) (j : AsteriskInstance)
    (h : db.find? (fun i => i.id == instId) = some j) :
    (setStatus db instId s).find? (fun i => i.id == instId)
      = some { j with status := s } := by
  induction db with
  | nil => simp at h
  | cons a tl ih =>
    rw [List.find?_cons] at h
    unfold setStatus
    simp only [List.map_cons]
    cases ha : (a.id == instId) with
    | true =>
      simp only [ha] at h
      cases h
      rw [List.find?_cons]
      simp [ha]
    | false =>
      simp only [ha] at h
      simp only [Bool.false_eq_true, if_false]
      rw [List.find?_cons]
      simp only [ha]
      exact ih h

/-- Claim C8, as stated: every failing asynchronous start moves the
instance status to error.  This is false for a start that exceeds its
timeout: subprocess.run raises before any status commit, so the record
keeps status creating instead of transitioning to error. -/
theorem c8_counterexample :
    statusOf (start_asterisk_container wProv instP RunResult.timedOut) 7
      = some "creating" ∧
    statusOf (start_asterisk_container wProv instP RunResult.timedOut) 7
      ≠ some "error" := by
  decide

/-- Claim C8, amended: when the start command completes with a non-zero
exit code, the instance status transitions to error while the durable
record (all other fields unchanged) and every existing filesystem path —
in particular the configuration namespace — are retained; a start that
times out retains both as well but leaves the status unchanged. -/
theorem c8_amended (w : World) (inst j : AsteriskInstance) (n : Nat)
    (hn : n ≠ 0)
    (hfind : w.instances.find? (fun i => i.id == inst.id) = some j) :
    ((start_asterisk_container w inst (RunResult.completed n)).instances.find?
        (fun i => i.id == inst.id) = some { j with status := "error" }) ∧
    (∀ p ∈ w.fs, p ∈ (start_asterisk_container w inst (RunResult.completed n)).fs) ∧
    ((start_asterisk_container w inst RunResult.timedOut).instances.find?
        (fun i => i.id == inst.id) = some j) ∧
    (∀ p ∈ w.fs, p ∈ (start_asterisk_container w inst RunResult.timedOut).fs) := by
  refine ⟨?_, ?_, ?_, ?_⟩
  · unfold start_asterisk_container
    match n, hn with
    | Nat.succ m, _ => exact find?_setStatus w.instances inst.id "error" j hfind
  · intro p hp
    unfold start_asterisk_container
    match n, hn with
    | Nat.succ m, _ => exact mem_addPath _ _ _ (mem_addPath _ _ _ hp)
  · exact hfind
  · intro p hp
    exact mem_addPath _ _ _ (mem_addPath _ _ _ hp)

/-- Witness for c8_amended at a concrete input. -/
theorem c8_amended_witness :
    ((start_asterisk_container wProv instP (RunResult.completed 1)).instances.find?
        (fun i => i.id == instP.id) = some { instP with status := "error" }) ∧
    (∀ p ∈ wProv.fs,
      p ∈ (start_asterisk_container wProv instP (RunResult.completed 1)).fs) ∧
    ((start_asterisk_container wProv instP RunResult.timedOut).instances.find?
        (fun i => i.id == instP.id) = some instP) ∧
    (∀ p ∈ wProv.fs,
      p ∈ (start_asterisk_container wProv instP RunResult.timedOut).fs) :=
  c8_amended wProv instP instP 1 (by decide) (by decide)

/-- Claim C6: rendering the sip.conf artifact is a pure function of the
instance record and the active roster of the instance: any two worlds that
agree on the instance row found by name and on the filtered active roster
produce byte-identical output, whatever their other instances, inactive
users, filesystem contents or counters are; in particular rendering twice
from an unchanged world reproduces the output byte for byte. -/
theorem c6_render_deterministic (instance_name : String) (w1 w2 : World)
    (hinst : w1.instances.find? (fun i => i.name == instance_name)
      = w2.instances.find? (fun i => i.name == instance_name))
    (husers : activeUsersFor instance_name w1.users
      = activeUsersFor instance_name w2.users) :
    renderSipConf instance_name w1 = renderSipConf instance_name w2 := by
  unfold renderSipConf
  rw [hinst, husers]

/-- Witness for c6_render_deterministic at concrete inputs: two worlds
differing in an unrelated instance, an inactive user, the filesystem and
the counters render identically. -/
theorem c6_render_deterministic_witness :
    renderSipConf "pbxr"
        { instances := [instR], users := [uInact], fs := [], nextId := 11,
          nextUserId := 23 }
      = renderSipConf "pbxr"
        { instances := [instR, instA], users := [], fs := ["./x"], nextId := 50,
          nextUserId := 1 } :=
  c6_render_deterministic "pbxr"
    { instances := [instR], users := [uInact], fs := [], nextId := 11,
      nextUserId := 23 }
    { instances := [instR, instA], users := [], fs := ["./x"], nextId := 50,
      nextUserId := 1 }
    (by decide) (by decide)

/-- Appending strings concatenates their character data. -/
theorem string_data_append (s t : String) : (s ++ t).data = s.data ++ t.data := by
  cases s; cases t; rfl

/-- String concatenation is associative. -/
theorem string_append_assoc (a b c : String) : a ++ b ++ c = a ++ (b ++ c) := by
  apply String.ext
  simp [string_data_append]

/-- The empty string is a right identity of concatenation. -/
theorem string_append_empty (s : String) : s ++ "" = s := by
  apply String.ext
  simp [string_data_append]

/-- The section-appending loop of update_sip_config equals the preamble
followed by the concatenated sections. -/
theorem foldl_sections (us : List SIPUser) (s : String) :
    us.foldl (fun acc u => acc ++ userSection u) s = s ++ concatSections us := by
  induction us generalizing s with
  | nil => simp [concatSections, string_append_empty]
  | cons u rest ih =>
    simp only [List.foldl_cons, concatSections]
    rw [ih, string_append_assoc]

/-- Structure of the rendered artifact: the shared preamble followed by
exactly one section per user of the supplied roster, in order. -/
theorem sip_conf_content_eq (inst : AsteriskInstance) (us : List SIPUser) :
    sip_conf_content inst us = sipPreamble inst ++ concatSections us :=
  foldl_sections us (sipPreamble inst)

/-- Deactivating one user by id commutes with the active-roster filter:
the active users of the updated table are exactly the previously active
users of the instance other than the deactivated one. -/
theorem filter_map_deactivate (nm : String) (userId now : Nat)
    (us : List SIPUser) :
    (us.map (fun x =>
        if x.id == userId && x.instance_name == nm then
          applyUserUpdate deactivateUpdate now x
        else x)).filter (fun u => u.instance_name == nm && u.is_active)
      = (us.filter (fun u => u.instance_name == nm && u.is_active)).filter
          (fun x => !(x.id == userId)) := by
  induction us with
  | nil => rfl
  | cons a tl ih =>
    simp only [List.map_cons, List.filter_cons]
    cases h1 : (a.id == userId) <;> cases h2 : (a.instance_name == nm) <;>
      cases h3 : a.is_active <;>
      simp_all [applyUserUpdate, deactivateUpdate]

/-- Claim C7: the rendered artifact consists of the preamble plus one
section per active user and none for inactive users, and deactivating a
user through update_sip_user removes exactly that user's section from the
regenerated artifact while the durable row is kept (same id, username,
password, caller_id and created_at, with is_active now false) and no row
is deleted. -/
theorem c7_deactivation (w : World) (instId userId now : Nat)
    (inst : AsteriskInstance) (u : SIPUser)
    (hinst : w.instances.find? (fun i => i.id == instId) = some inst)
    (hbyname : w.instances.find? (fun i => i.name == inst.name) = some inst)
    (huser : w.users.find?
      (fun x => x.id == userId && x.instance_name == inst.name) = some u) :
    ∃ w', update_sip_user w instId userId deactivateUpdate now = some w' ∧
      { u with is_active := false, updated_at := now } ∈ w'.users ∧
      w'.users.length = w.users.length ∧
      renderSipConf inst.name w' =
        some (sipPreamble inst ++
          concatSections ((activeUsersFor inst.name w.users).filter
            (fun x => !(x.id == userId)))) := by
  unfold update_sip_user
  simp only [hinst, huser]
  refine ⟨_, rfl, ?_, List.length_map _ _, ?_⟩
  · have hu : u ∈ w.users := List.mem_of_find?_eq_some huser
    have hpred := List.find?_some huser
    have hmem := List.mem_map_of_mem (fun x =>
      if x.id == userId && x.instance_name == inst.name then
        applyUserUpdate deactivateUpdate now x
      else x) hu
    simp only [hpred, if_true] at hmem
    simpa [applyUserUpdate, deactivateUpdate] using hmem
  · unfold renderSipConf
    simp only [hbyname]
    unfold activeUsersFor
    rw [filter_map_deactivate, sip_conf_content_eq]

/-- Witness for c7_deactivation at a concrete input: deactivating user 20
of instance 10. -/
theorem c7_deactivation_witness :
    ∃ w', update_sip_user wUp 10 20 deactivateUpdate 9 = some w' ∧
      { uAct with is_active := false, updated_at := 9 } ∈ w'.users ∧
      w'.users.length = wUp.users.length ∧
      renderSipConf instR.name w' =
        some (sipPreamble instR ++
          concatSections ((activeUsersFor instR.name wUp.users).filter
            (fun x => !(x.id == 20)))) :=
  c7_deactivation wUp 10 20 9 instR uAct (by decide) (by decide) (by decide)

/-- The scanner is compositional over concatenation. -/
theorem lineStartScan_append (xs ys : List Char) (b : Bool) :
    lineStartScan b (xs ++ ys)
      = lineStartScan b xs + lineStartScan (lineState b xs) ys := by
  induction xs generalizing b with
  | nil => simp [lineStartScan, lineState]
  | cons c cs ih =>
    simp only [List.cons_append, lineStartScan, lineState]
    by_cases h1 : c = '\n'
    · simp [h1, ih]
    · by_cases h2 : c = '['
      · have h2n : ¬(c = ' ') := by rw [h2]; decide
        simp [h1, h2, h2n, ih, Nat.add_assoc]
      · by_cases h3 : c = ' '
        · simp [h1, h2, h3, ih]
        · simp [h1, h2, h3, ih]

/-- The scanner state is compositional over concatenation. -/
theorem lineState_append (xs ys : List Char) (b : Bool) :
    lineState b (xs ++ ys) = lineState (lineState b xs) ys := by
  induction xs generalizing b with
  | nil => simp [lineState]
  | cons c cs ih =>
    simp only [List.cons_append, lineState]
    by_cases h1 : c = '\n'
    · simp [h1, ih]
    · by_cases h3 : c = ' '
      · simp [h1, h3, ih]
      · simp [h1, h3, ih]

/-- Text without a newline contributes no section-header line when it
starts mid-line, and leaves the scanner mid-line. -/
theorem scan_no_newline (l : List Char) (h : '\n' ∉ l) :
    lineStartScan false l = 0 ∧ lineState false l = false := by
  induction l with
  | nil => simp [lineStartScan, lineState]
  | cons c cs ih =>
    simp only [List.mem_cons, not_or] at h
    obtain ⟨h1, h2⟩ := h
    have ihr := ih h2
    have hc : ¬(c = '\n') := fun e => h1 e.symm
    simp only [lineStartScan, lineState, hc, if_false]
    by_cases h2b : c = '['
    · have h2n : ¬(c = ' ') := by rw [h2b]; decide
      simp [h2b, h2n, ihr.1, ihr.2]
    · by_cases h3 : c = ' '
      · simp [h2b, h3, ihr.1, ihr.2]
      · simp [h2b, h3, ihr.1, ihr.2]

/-- Decimal digit characters are never a newline. -/
theorem digitChar_ne_newline (m : Nat) : Nat.digitChar m ≠ '\n' := by
  by_cases h : m < 16
  · interval_cases m <;> decide
  · have h0 : m ≠ 0 := by omega
    have h1 : m ≠ 1 := by omega
    have h2 : m ≠ 2 := by omega
    have h3 : m ≠ 3 := by omega
    have h4 : m ≠ 4 := by omega
    have h5 : m ≠ 5 := by omega
    have h6 : m ≠ 6 := by omega
    have h7 : m ≠ 7 := by omega
    have h8 : m ≠ 8 := by omega
    have h9 : m ≠ 9 := by omega
    have h10 : m ≠ 10 := by omega
    have h11 : m ≠ 11 := by omega
    have h12 : m ≠ 12 := by omega
    have h13 : m ≠ 13 := by omega
    have h14 : m ≠ 14 := by omega
    have h15 : m ≠ 15 := by omega
    simp [Nat.digitChar, h0, h1, h2, h3, h4, h5, h6, h7, h8, h9, h10,
      h11, h12, h13, h14, h15]

/-- The decimal printer never emits a newline. -/
theorem toDigitsCore_no_newline (fuel : Nat) : ∀ (n : Nat) (ds : List Char),
    '\n' ∉ ds → '\n' ∉ Nat.toDigitsCore 10 fuel n ds := by
  induction fuel with
  | zero => intro n ds hds; simpa [Nat.toDigitsCore] using hds
  | succ f ih =>
    intro n ds hds
    simp only [Nat.toDigitsCore]
    split
    · simp only [List.mem_cons, not_or]
      exact ⟨fun e => digitChar_ne_newline _ e.symm, hds⟩
    · exact ih _ _ (by
        simp only [List.mem_cons, not_or]
        exact ⟨fun e => digitChar_ne_newline _ e.symm, hds⟩)

/-- The decimal rendering of a natural number contains no newline. -/
theorem repr_no_newline (n : Nat) : '\n' ∉ (Nat.repr n).toList := by
  show '\n' ∉ (Nat.toDigits 10 n).asString.toList
  show '\n' ∉ Nat.toDigits 10 n
  unfold Nat.toDigits
  exact toDigitsCore_no_newline _ _ _ (by simp)

/-- Appending strings concatenates their character lists. -/
theorem string_toList_append (s t : String) :
    (s ++ t).toList = s.toList ++ t.toList :=
  string_data_append s t

/-- Character decomposition of one rendered user section. -/
theorem userSection_chars (u : SIPUser) :
    (userSection u).toList =
      secA.toList ++ (u.caller_id.toList ++ (secB.toList ++ (u.username.toList ++
        (secC.toList ++ (u.password.toList ++ (secD.toList ++ (u.context.toList ++
        (secE.toList ++ (u.caller_id.toList ++ (secF.toList ++ (u.username.toList ++
        (secG.toList ++ (u.account_code.toList ++ secH.toList))))))))))))) := by
  unfold userSection
  simp only [string_toList_append, List.append_assoc]

/-- A user section with benign fields contains exactly one section-header
line (its own bracketed username) from any entry state, and leaves the
scanner at a fresh-line state. -/
theorem userSection_scan (u : SIPUser) (h : benignFields u) (b : Bool) :
    lineStartScan b (userSection u).toList = 1 ∧
    lineState b (userSection u).toList = true := by
  obtain ⟨hcal, husr, hpas, hctx, hacc⟩ := h
  have ecal := scan_no_newline _ hcal
  have eusr := scan_no_newline _ husr
  have epas := scan_no_newline _ hpas
  have ectx := scan_no_newline _ hctx
  have eacc := scan_no_newline _ hacc
  have eAt : lineStartScan true secA.toList = 0 := by decide
  have eAf : lineStartScan false secA.toList = 0 := by decide
  have sAt : lineState true secA.toList = false := by decide
  have sAf : lineState false secA.toList = false := by decide
  have eB : lineStartScan false secB.toList = 1 := by decide
  have sB : lineState false secB.toList = false := by decide
  have eC : lineStartScan false secC.toList = 0 := by decide
  have sC : lineState false secC.toList = false := by decide
  have eD : lineStartScan false secD.toList = 0 := by decide
  have sD : lineState false secD.toList = false := by decide
  have eE : lineStartScan false secE.toList = 0 := by decide
  have sE : lineState false secE.toList = false := by decide
  have eF : lineStartScan false secF.toList = 0 := by decide
  have sF : lineState false secF.toList = false := by decide
  have eG : lineStartScan false secG.toList = 0 := by decide
  have sG : lineState false secG.toList = false := by decide
  have eH : lineStartScan false secH.toList = 0 := by decide
  have sH : lineState false secH.toList = true := by decide
  rw [userSection_chars]
  cases b <;> refine ⟨?_, ?_⟩ <;>
    simp only [lineStartScan_append, lineState_append, eAt, eAf, sAt, sAf,
      ecal.1, ecal.2, eusr.1, eusr.2, epas.1, epas.2, ectx.1, ectx.2,
      eacc.1, eacc.2, eB, sB, eC, sC, eD, sD, eE, sE, eF, sF, eG, sG, eH, sH,
      Nat.zero_add, Nat.add_zero]

/-- Character decomposition of the rendered preamble. -/
theorem sipPreamble_chars (inst : AsteriskInstance) :
    (sipPreamble inst).toList =
      preA.toList ++ ((Nat.repr inst.sip_port).toList ++ (preB.toList ++
        ((Nat.repr inst.sip_port).toList ++ preC.toList))) := by
  unfold sipPreamble
  simp only [string_toList_append, List.append_assoc]

/-- The preamble contains exactly one section-header line (its general
section), whatever signaling port is interpolated, and leaves the scanner
at a fresh-line state. -/
theorem sipPreamble_scan (inst : AsteriskInstance) :
    lineStartScan true (sipPreamble inst).toList = 1 ∧
    lineState true (sipPreamble inst).toList = true := by
  have erepr := scan_no_newline _ (repr_no_newline inst.sip_port)
  have eA : lineStartScan true preA.toList = 1 := by decide
  have sA : lineState true preA.toList = false := by decide
  have eB : lineStartScan false preB.toList = 0 := by decide
  have sB : lineState false preB.toList = false := by decide
  have eC : lineStartScan false preC.toList = 0 := by decide
  have sC : lineState false preC.toList = true := by decide
  rw [sipPreamble_chars]
  refine ⟨?_, ?_⟩ <;>
    simp only [lineStartScan_append, lineState_append, eA, sA, eB, sB, eC, sC,
      erepr.1, erepr.2, Nat.zero_add, Nat.add_zero]

/-- Concatenated sections of a benign roster contribute exactly one
section-header line per user. -/
theorem concatSections_scan (us : List SIPUser)
    (h : ∀ u ∈ us, benignFields u) :
    lineStartScan true (concatSections us).toList = us.length ∧
    lineState true (concatSections us).toList = true := by
  induction us with
  | nil => simp [concatSections, lineStartScan, lineState]
  | cons u rest ih =>
    have hu := h u (List.mem_cons_self u rest)
    have hrest := ih (fun v hv => h v (List.mem_cons_of_mem u hv))
    have su := userSection_scan u hu true
    unfold concatSections
    rw [string_toList_append, lineStartScan_append, lineState_append,
      su.1, su.2, hrest.1, hrest.2]
    simp [Nat.add_comm]

/-- Claim C4, as stated: the renderer escapes or quotes the free-text
fields so that user data stays confined to its own section.  This is
false: caller_id is interpolated verbatim (twice) into the artifact, so a
caller_id containing a newline followed by a bracketed name opens spurious
sections.  With one active user whose caller_id is such a payload, the
artifact has 4 section-header lines instead of the 2 (preamble plus one
user section) that confinement would give. -/
theorem c4_counterexample :
    let uEvil : SIPUser :=
      { id := 30, username := "3000", password := "pw", caller_id := "X\n[evil]",
        account_code := "a", context := "internal", instance_name := "pbxr",
        is_active := true, created_at := 0, updated_at := 0 }
    sectionLineCount (sip_conf_content instR [uEvil]) = 4 ∧
    1 + ([uEvil] : List SIPUser).length = 2 := by
  constructor
  · decide
  · decide

/-- Claim C4, amended: no escaping or quoting is performed — the fields
are interpolated verbatim — so confinement holds exactly for rosters whose
interpolated fields contain no newline: then the artifact has exactly one
section-header line per roster entry beyond the preamble, and no entry can
corrupt another section or the file structure. -/
theorem c4_amended (inst : AsteriskInstance) (us : List SIPUser)
    (h : ∀ u ∈ us, benignFields u) :
    sectionLineCount (sip_conf_content inst us) = 1 + us.length := by
  unfold sectionLineCount
  rw [sip_conf_content_eq, string_toList_append, lineStartScan_append]
  have hp := sipPreamble_scan inst
  have hc := concatSections_scan us h
  rw [hp.1, hp.2, hc.1]

/-- Witness for c4_amended at a concrete input: one benign active user
yields exactly two section-header lines. -/
theorem c4_amended_witness :
    sectionLineCount (sip_conf_content instR [uAct]) = 1 + [uAct].length :=
  c4_amended instR [uAct] (by decide)

end CephAsterisk
